import Mathlib

/-!
Shallow embedding of the geospatial core of the webGIS application
(`src/utils/apiService.js` and `src/utils/geoUtils.js`).

Modelling conventions:
* JavaScript numbers are modelled as real numbers (`ℝ`).
* A polygon ring is a `List Point` where `Point = ℝ × ℝ` holds
  `(latitude, longitude)` — the source stores points as `[lat, lng]` arrays.
* `Math.round x` is `⌊x + 1/2⌋` (JS rounds half towards +∞) and
  `Math.floor` is `Int.floor`.
* `Math.random()` is modelled by an injected stream `rng : ℕ → ℝ`, the
  i-th call of one function invocation reading `rng i`.
* The Overpass provider call inside `fetchLandUseData` is modelled by an
  explicit argument of type `OverpassResult`: the call either fails
  (network error, HTTP error, malformed body — everything the JS `catch`
  or the missing-`elements` throw would see) or succeeds with a list of
  OpenStreetMap elements.  The query string sent over the network has no
  influence on the modelled result and is not represented.
-/

/-- A geographic point `(latitude, longitude)` in degrees, the source
array `[lat, lng]`: index `0` is `.1`, index `1` is `.2`. -/
abbrev Point : Type := ℝ × ℝ

/-- Tags of an OpenStreetMap element, as read by `fetchLandUseData`
(`element.tags.landuse`, `element.tags.natural`). -/
structure OSMTags where
  landuse : Option String
  natural : Option String

/-- An OpenStreetMap element of an Overpass response; `tags` is `none`
when the JS object has no `tags` field. -/
structure OSMElement where
  tags : Option OSMTags

/-- Outcome of the Overpass provider call made by `fetchLandUseData`:
either any failure the surrounding `try/catch` would see (network error,
HTTP error, missing `response.data.elements`), or a successful response
carrying its `elements` array. -/
inductive OverpassResult where
  | failure : OverpassResult
  | success (elements : List OSMElement) : OverpassResult

/-- `element.tags && element.tags.landuse === value` for one element. -/
def hasLanduseTag (e : OSMElement) (value : String) : Bool :=
  match e.tags with
  | some t => t.landuse == some value
  | none => false

/-- `element.tags && element.tags.natural === value` for one element. -/
def hasNaturalTag (e : OSMElement) (value : String) : Bool :=
  match e.tags with
  | some t => t.natural == some value
  | none => false

/-- Number of elements whose `tags.landuse` equals `value`; the source
increments a counter inside `elements.forEach`. -/
def countLanduse (elements : List OSMElement) (value : String) : ℕ :=
  (elements.filter (fun e => hasLanduseTag e value)).length

/-- Number of elements whose `tags.natural` equals `value`. -/
def countNatural (elements : List OSMElement) (value : String) : ℕ :=
  (elements.filter (fun e => hasNaturalTag e value)).length

/-- Result record of the land-use functions: the five integer
percentages plus the `dataSource` provenance string. -/
structure LandUseData where
  urban : ℤ
  agriculture : ℤ
  forest : ℤ
  water : ℤ
  other : ℤ
  dataSource : String

/-- The GeoJSON `geometry` object produced by `coordsToGeoJSON`. -/
structure PolygonGeometry where
  type : String
  coordinates : List (List (ℝ × ℝ))

/-- The GeoJSON `Feature` object produced by `coordsToGeoJSON`;
`properties` is the empty object `{}`. -/
structure GeoJSONFeature where
  type : String
  properties : List (String × String)
  geometry : PolygonGeometry

/-- The climate record returned by `generateClimateDataFromLocation`. -/
structure ClimateData where
  months : List String
  temperatures : List ℝ
  precipitation : List ℝ
  dataSource : String

/-- The French month labels used by the climate estimator. -/
def climateMonths : List String :=
  ["Jan", "Fév", "Mar", "Avr", "Mai", "Juin", "Juil", "Août", "Sep", "Oct", "Nov", "Déc"]

noncomputable section

/-- JS `Math.round`: round half towards +∞. -/
def jsRound (x : ℝ) : ℤ := ⌊x + 1 / 2⌋

/-- `const toRadians = (deg) => deg * (Math.PI / 180)` (defined locally in
both area functions of the source). -/
def toRadians (deg : ℝ) : ℝ := deg * (Real.pi / 180)

/-- Body of the accumulation loop shared (textually identical) by
`calculatePolygonArea` and `calculatePolygonAreaInKm2`:
`lon1 * Math.sin(lat2) - lon2 * Math.sin(lat1)` with
`lat1 = toRadians(p[0])`, `lon1 = toRadians(p[1])` and likewise for `q`. -/
def gaussTerm (p q : Point) : ℝ :=
  toRadians p.2 * Real.sin (toRadians q.1) - toRadians q.2 * Real.sin (toRadians p.1)

/-- `calculatePolygonArea` from `geoUtils.js`: Gauss line-integral
approximation of the spherical area, in square metres, Earth radius
6371000 m.  Rings with fewer than 3 points give 0. -/
def calculatePolygonArea (polygonCoords : List Point) : ℝ :=
  if polygonCoords.length < 3 then 0
  else
    |(∑ i ∈ Finset.range polygonCoords.length,
        gaussTerm (polygonCoords.getD i (0, 0))
          (polygonCoords.getD ((i + 1) % polygonCoords.length) (0, 0)))
      * 6371000 * 6371000 / 2|

/-- `calculatePolygonAreaInKm2` from `apiService.js`: the second,
independent copy of the same loop, with Earth radius 6371 km, returning
square kilometres. -/
def calculatePolygonAreaInKm2 (polygonCoords : List Point) : ℝ :=
  if polygonCoords.length < 3 then 0
  else
    |(∑ i ∈ Finset.range polygonCoords.length,
        gaussTerm (polygonCoords.getD i (0, 0))
          (polygonCoords.getD ((i + 1) % polygonCoords.length) (0, 0)))
      * 6371 * 6371 / 2|

/-- JS `Math.atan2 y x` (sign conventions of IEEE ±0 are not
representable over `ℝ`; the function is only ever applied to the
non-negative arguments produced by the haversine formula). -/
def jsAtan2 (y x : ℝ) : ℝ :=
  if 0 < x then Real.arctan (y / x)
  else if x < 0 ∧ 0 ≤ y then Real.arctan (y / x) + Real.pi
  else if x < 0 ∧ y < 0 then Real.arctan (y / x) - Real.pi
  else if x = 0 ∧ 0 < y then Real.pi / 2
  else if x = 0 ∧ y < 0 then -(Real.pi / 2)
  else 0

/-- Body of the loop of `calculatePolygonPerimeter`: great-circle
distance between two consecutive vertices by the haversine formula,
Earth radius 6371000 m. -/
def haversineDistance (p q : Point) : ℝ :=
  let lat1 := p.1 * (Real.pi / 180)
  let lng1 := p.2 * (Real.pi / 180)
  let lat2 := q.1 * (Real.pi / 180)
  let lng2 := q.2 * (Real.pi / 180)
  let dLat := lat2 - lat1
  let dLng := lng2 - lng1
  let a := Real.sin (dLat / 2) * Real.sin (dLat / 2) +
    Real.cos lat1 * Real.cos lat2 * (Real.sin (dLng / 2) * Real.sin (dLng / 2))
  let c := 2 * jsAtan2 (Real.sqrt a) (Real.sqrt (1 - a))
  6371000 * c

/-- `calculatePolygonPerimeter` from `geoUtils.js`: sum of haversine
distances over consecutive vertices, wrapping last → first.  Rings with
fewer than 2 points give 0. -/
def calculatePolygonPerimeter (polygonCoords : List Point) : ℝ :=
  if polygonCoords.length < 2 then 0
  else
    ∑ i ∈ Finset.range polygonCoords.length,
      haversineDistance (polygonCoords.getD i (0, 0))
        (polygonCoords.getD ((i + 1) % polygonCoords.length) (0, 0))

/-- `coordsToGeoJSON` from `geoUtils.js`: swap every pair to
`(lng, lat)`, close the ring by appending the first swapped vertex when
first and last differ in either component, and wrap the ring in a
`Feature`/`Polygon` object.  Returns `none` for rings of fewer than 3
points. -/
def coordsToGeoJSON (polygonCoords : List Point) : Option GeoJSONFeature :=
  if polygonCoords.length < 3 then none
  else
    let coordinates := polygonCoords.map (fun coord => (coord.2, coord.1))
    let closed :=
      if (coordinates.getD 0 (0, 0)).1 ≠ (coordinates.getD (coordinates.length - 1) (0, 0)).1 ∨
          (coordinates.getD 0 (0, 0)).2 ≠ (coordinates.getD (coordinates.length - 1) (0, 0)).2
      then coordinates ++ [coordinates.getD 0 (0, 0)]
      else coordinates
    some { type := "Feature", properties := [],
           geometry := { type := "Polygon", coordinates := [closed] } }

/-- `isLikelyOceanLocation` from `apiService.js`: a point is land
(`false`) when it falls in one of six coarse continental boxes or south
of latitude −60 (Antarctica); otherwise it is classified as ocean
(`true`). -/
def isLikelyOceanLocation (lat lng : ℝ) : Bool :=
  if lat > 35 ∧ lat < 70 ∧ lng > -10 ∧ lng < 40 then false
  else if lat > 15 ∧ lat < 70 ∧ lng > -170 ∧ lng < -50 then false
  else if lat > -60 ∧ lat < 15 ∧ lng > -80 ∧ lng < -35 then false
  else if lat > -40 ∧ lat < 35 ∧ lng > -20 ∧ lng < 55 then false
  else if lat > 0 ∧ lat < 75 ∧ lng > 40 ∧ lng < 180 then false
  else if lat > -45 ∧ lat < -10 ∧ lng > 110 ∧ lng < 155 then false
  else if lat < -60 then false
  else true

/-- `estimateLandUseFromLocation` from `apiService.js`: synthetic
land-use percentages from the mean of the ring coordinates, ocean
classification, and the latitude band.  Each `Math.random()` of a branch
reads the next value of `rng`, in source order of the object fields. -/
def estimateLandUseFromLocation (polygonCoords : List Point) (rng : ℕ → ℝ) : LandUseData :=
  let centerLat := (polygonCoords.map (fun p => p.1)).sum / polygonCoords.length
  let centerLng := (polygonCoords.map (fun p => p.2)).sum / polygonCoords.length
  if isLikelyOceanLocation centerLat centerLng then
    { water := 98, urban := 0, agriculture := 0, forest := 0, other := 2,
      dataSource := "Estimation (océan)" }
  else if |centerLat| > 60 then
    { water := ⌊rng 0 * 15⌋, urban := ⌊rng 1 * 5⌋, agriculture := ⌊rng 2 * 10⌋,
      forest := ⌊rng 3 * 30 + 40⌋, other := ⌊rng 4 * 30 + 10⌋,
      dataSource := "Estimation (zone polaire)" }
  else if |centerLat| > 45 then
    { water := ⌊rng 0 * 15⌋, urban := ⌊rng 1 * 15 + 5⌋, agriculture := ⌊rng 2 * 25 + 15⌋,
      forest := ⌊rng 3 * 30 + 20⌋, other := ⌊rng 4 * 15 + 5⌋,
      dataSource := "Estimation (zone subpolaire)" }
  else if |centerLat| > 23 then
    { water := ⌊rng 0 * 10⌋, urban := ⌊rng 1 * 30 + 15⌋, agriculture := ⌊rng 2 * 30 + 20⌋,
      forest := ⌊rng 3 * 20 + 10⌋, other := ⌊rng 4 * 15⌋,
      dataSource := "Estimation (zone tempérée)" }
  else
    { water := ⌊rng 0 * 15⌋, urban := ⌊rng 1 * 20 + 5⌋, agriculture := ⌊rng 2 * 25 + 15⌋,
      forest := ⌊rng 3 * 35 + 20⌋, other := ⌊rng 4 * 20⌋,
      dataSource := "Estimation (zone tropicale)" }

/-- `fetchLandUseData` from `apiService.js`, with the Overpass call
abstracted to an `OverpassResult` argument.  Large areas (> 100 km²)
skip the provider; a failed call, or a successful call whose matched
counts are all zero, falls back to `estimateLandUseFromLocation`;
otherwise the counts are turned into rounded percentages with the
remainder (clamped at 0) in `other`. -/
def fetchLandUseData (polygonCoords : List Point) (resp : OverpassResult)
    (rng : ℕ → ℝ) : LandUseData :=
  if calculatePolygonAreaInKm2 polygonCoords > 100 then
    estimateLandUseFromLocation polygonCoords rng
  else
    match resp with
    | OverpassResult.failure => estimateLandUseFromLocation polygonCoords rng
    | OverpassResult.success elements =>
      let urban := countLanduse elements "residential"
      let agriculture := countLanduse elements "farmland"
      let forest := countNatural elements "wood"
      let water := countNatural elements "water"
      let total := urban + agriculture + forest + water
      if total = 0 then estimateLandUseFromLocation polygonCoords rng
      else
        let urbanPercent := jsRound ((urban : ℝ) / (total : ℝ) * 100)
        let agriculturePercent := jsRound ((agriculture : ℝ) / (total : ℝ) * 100)
        let forestPercent := jsRound ((forest : ℝ) / (total : ℝ) * 100)
        let waterPercent := jsRound ((water : ℝ) / (total : ℝ) * 100)
        let calculatedTotal := urbanPercent + agriculturePercent + forestPercent + waterPercent
        let otherPercent := 100 - calculatedTotal
        { urban := urbanPercent, agriculture := agriculturePercent,
          forest := forestPercent, water := waterPercent,
          other := if 0 ≤ otherPercent then otherPercent else 0,
          dataSource := "OpenStreetMap" }

/-- The mean latitude used by `generateClimateDataFromLocation`
(`reduce((sum, point) => sum + point[0], 0) / length`). -/
def climateCenterLat (polygonCoords : List Point) : ℝ :=
  (polygonCoords.map (fun p => p.1)).sum / polygonCoords.length

/-- The internal `temperatures` array of `generateClimateDataFromLocation`,
before rounding to one decimal: a sine curve of half the latitude-driven
range over the latitude-driven baseline, phase-shifted by hemisphere
(`centerLat >= 0` is northern). -/
def climateTemperatures (polygonCoords : List Point) : List ℝ :=
  let centerLat := climateCenterLat polygonCoords
  let temperatureRange := min 35 |centerLat| + 5
  let baseTemperature := max 5 (25 - |centerLat| / 2)
  if 0 ≤ centerLat then
    (List.range 12).map (fun index : ℕ =>
      baseTemperature + temperatureRange / 2 * Real.sin (((index : ℝ) - 3) / 12 * 2 * Real.pi))
  else
    (List.range 12).map (fun index : ℕ =>
      baseTemperature + temperatureRange / 2 * Real.sin (((index : ℝ) + 3) / 12 * 2 * Real.pi))

/-- `generateClimateDataFromLocation` from `apiService.js`: the synthetic
12-month climate record.  Temperatures are the sine curve rounded to one
decimal; precipitation adds `rng`-driven noise scaled by the month-to-month
temperature change and the absolute temperature.  `rng 0` is the
`baseRain` draw, `rng (i+1)` the draw of month `i`. -/
def generateClimateDataFromLocation (polygonCoords : List Point) (rng : ℕ → ℝ) : ClimateData :=
  let temperatures := climateTemperatures polygonCoords
  let baseRain := rng 0 * 40 + 20
  let precipitation := (List.range 12).map (fun i =>
    let temp := temperatures.getD i 0
    let prevTemp := if 0 < i then temperatures.getD (i - 1) 0
      else temperatures.getD (temperatures.length - 1) 0
    let tempDiff := |temp - prevTemp|
    let rainFactor := tempDiff * 5 + temp / 3
    max 5 (baseRain + rng (i + 1) * rainFactor))
  { months := climateMonths,
    temperatures := temperatures.map (fun t => (⌊t * 10 + 1 / 2⌋ : ℝ) / 10),
    precipitation := precipitation.map (fun p => (⌊p + 1 / 2⌋ : ℝ)),
    dataSource := "Données simulées basées sur la localisation" }

end

/-! ### Cyclic edge sums

Both area loops and the perimeter loop of the source have the shape
`for i in 0..n-1: acc += f(coords[i], coords[(i+1) % n])`.  The helpers
below recast such a sum with a cyclic (index mod length) access so that
rotation and reversal of the vertex list become index shifts. -/

noncomputable section

/-- Cyclic access into a vertex list: the index is reduced modulo the
length, so `cyclicGetD xs i = xs[i % n]`. -/
def cyclicGetD (xs : List Point) (i : ℕ) : Point :=
  xs.getD (i % xs.length) (0, 0)

/-- Sum of a two-vertex function over the cyclic edge pairs
`(xs[i], xs[(i+1) % n])` of a list — the common shape of the loops of
`calculatePolygonArea`, `calculatePolygonAreaInKm2` and
`calculatePolygonPerimeter`. -/
def cyclicSum (f : Point → Point → ℝ) (xs : List Point) : ℝ :=
  ∑ i ∈ Finset.range xs.length, f (cyclicGetD xs i) (cyclicGetD xs (i + 1))

end

lemma cyclicGetD_add_length (xs : List Point) (i : ℕ) :
    cyclicGetD xs (i + xs.length) = cyclicGetD xs i := by
  unfold cyclicGetD
  rw [Nat.add_mod_right]

lemma cyclicGetD_congr (xs : List Point) {a b : ℕ}
    (h : a % xs.length = b % xs.length) : cyclicGetD xs a = cyclicGetD xs b := by
  unfold cyclicGetD
  rw [h]

lemma polygonLoopSum_eq_cyclicSum (f : Point → Point → ℝ) (xs : List Point) :
    (∑ i ∈ Finset.range xs.length,
      f (xs.getD i (0, 0)) (xs.getD ((i + 1) % xs.length) (0, 0))) = cyclicSum f xs := by
  unfold cyclicSum cyclicGetD
  refine Finset.sum_congr rfl (fun i hi => ?_)
  rw [Nat.mod_eq_of_lt (Finset.mem_range.mp hi)]

lemma sum_range_shift_one (n : ℕ) (F : ℕ → ℝ) (hF : F n = F 0) :
    ∑ i ∈ Finset.range n, F (i + 1) = ∑ i ∈ Finset.range n, F i := by
  cases n with
  | zero => simp
  | succ m =>
    rw [Finset.sum_range_succ, Finset.sum_range_succ' F m, hF]

lemma sum_range_shift (n : ℕ) (F : ℕ → ℝ) (hF : ∀ i, F (i + n) = F i) (k : ℕ) :
    ∑ i ∈ Finset.range n, F (i + k) = ∑ i ∈ Finset.range n, F i := by
  induction k with
  | zero => simp
  | succ k ih =>
    have h1 : ∑ i ∈ Finset.range n, F (i + (k + 1)) =
        ∑ i ∈ Finset.range n, (fun j => F (j + k)) (i + 1) := by
      refine Finset.sum_congr rfl (fun i _ => ?_)
      have e : i + (k + 1) = i + 1 + k := by omega
      rw [e]
    have h2 : (fun j => F (j + k)) n = (fun j => F (j + k)) 0 := by
      show F (n + k) = F (0 + k)
      rw [Nat.add_comm n k, Nat.zero_add]
      exact hF k
    rw [h1, sum_range_shift_one n (fun j => F (j + k)) h2]
    exact ih

lemma cyclicGetD_rotate (xs : List Point) (k i : ℕ) :
    cyclicGetD (xs.rotate k) i = cyclicGetD xs (i + k) := by
  rcases Nat.eq_zero_or_pos xs.length with h0 | hpos
  · have hxs : xs = [] := List.length_eq_zero.mp h0
    subst hxs
    rw [List.rotate_nil]
    unfold cyclicGetD
    simp
  · unfold cyclicGetD
    rw [List.length_rotate]
    have h1 : i % xs.length < xs.length := Nat.mod_lt _ hpos
    have h2 : i % xs.length < (xs.rotate k).length := by
      rw [List.length_rotate]; exact h1
    have h3 : (i + k) % xs.length < xs.length := Nat.mod_lt _ hpos
    rw [List.getD_eq_getElem?_getD, List.getD_eq_getElem?_getD,
      List.getElem?_eq_getElem h2, List.getElem?_eq_getElem h3,
      List.getElem_rotate]
    have e : (i % xs.length + k) % xs.length = (i + k) % xs.length := by
      rw [Nat.add_mod, Nat.mod_mod_of_dvd i dvd_rfl, ← Nat.add_mod]
    simp only [e]

lemma cyclicSum_rotate (f : Point → Point → ℝ) (xs : List Point) (k : ℕ) :
    cyclicSum f (xs.rotate k) = cyclicSum f xs := by
  unfold cyclicSum
  rw [List.length_rotate]
  have h1 : ∀ i ∈ Finset.range xs.length,
      f (cyclicGetD (xs.rotate k) i) (cyclicGetD (xs.rotate k) (i + 1)) =
      (fun j => f (cyclicGetD xs j) (cyclicGetD xs (j + 1))) (i + k) := by
    intro i _
    have e : i + 1 + k = i + k + 1 := by omega
    rw [cyclicGetD_rotate, cyclicGetD_rotate, e]
  rw [Finset.sum_congr rfl h1]
  exact sum_range_shift xs.length
    (fun j => f (cyclicGetD xs j) (cyclicGetD xs (j + 1)))
    (fun j => by
      show f (cyclicGetD xs (j + xs.length)) (cyclicGetD xs (j + xs.length + 1)) =
        f (cyclicGetD xs j) (cyclicGetD xs (j + 1))
      have e : j + xs.length + 1 = (j + 1) + xs.length := by omega
      rw [e, cyclicGetD_add_length, cyclicGetD_add_length]) k

lemma cyclicGetD_reverse (xs : List Point) (hpos : 0 < xs.length) (i : ℕ) :
    cyclicGetD xs.reverse i = cyclicGetD xs (xs.length - 1 - i % xs.length) := by
  unfold cyclicGetD
  rw [List.length_reverse]
  have h1 : i % xs.length < xs.length := Nat.mod_lt _ hpos
  have h2 : xs.length - 1 - i % xs.length < xs.length := by omega
  rw [List.getD_eq_getElem?_getD, List.getD_eq_getElem?_getD,
    List.getElem?_reverse h1, Nat.mod_eq_of_lt h2]

lemma cyclicSum_reverse (f : Point → Point → ℝ) (xs : List Point) :
    cyclicSum f xs.reverse = cyclicSum (fun p q => f q p) xs := by
  rcases Nat.eq_zero_or_pos xs.length with h0 | hpos
  · have hxs : xs = [] := List.length_eq_zero.mp h0
    subst hxs
    simp [cyclicSum]
  unfold cyclicSum
  rw [List.length_reverse, ← Finset.sum_range_reflect]
  have key : ∀ i ∈ Finset.range xs.length,
      f (cyclicGetD xs.reverse (xs.length - 1 - i))
        (cyclicGetD xs.reverse (xs.length - 1 - i + 1)) =
      (fun j => f (cyclicGetD xs (j + 1)) (cyclicGetD xs j)) (i + (xs.length - 1)) := by
    intro i hi
    have hi' : i < xs.length := Finset.mem_range.mp hi
    have a1 : cyclicGetD xs.reverse (xs.length - 1 - i) =
        cyclicGetD xs (i + (xs.length - 1) + 1) := by
      rw [cyclicGetD_reverse xs hpos]
      refine cyclicGetD_congr xs ?_
      have e1 : (xs.length - 1 - i) % xs.length = xs.length - 1 - i :=
        Nat.mod_eq_of_lt (by omega)
      rw [e1]
      have e2 : xs.length - 1 - (xs.length - 1 - i) = i := by omega
      have e3 : i + (xs.length - 1) + 1 = i + xs.length := by omega
      rw [e2, e3, Nat.add_mod_right]
    have a2 : cyclicGetD xs.reverse (xs.length - 1 - i + 1) =
        cyclicGetD xs (i + (xs.length - 1)) := by
      rw [cyclicGetD_reverse xs hpos]
      refine cyclicGetD_congr xs ?_
      rcases Nat.eq_zero_or_pos i with hi0 | hip
      · subst hi0
        have e1 : xs.length - 1 - 0 + 1 = xs.length := by omega
        rw [e1, Nat.mod_self]
        have e2 : xs.length - 1 - 0 = xs.length - 1 := by omega
        rw [e2, Nat.zero_add]
      · have e1 : xs.length - 1 - i + 1 = xs.length - i := by omega
        have e2 : (xs.length - i) % xs.length = xs.length - i :=
          Nat.mod_eq_of_lt (by omega)
        rw [e1, e2]
        have e3 : xs.length - 1 - (xs.length - i) = i - 1 := by omega
        have e4 : i + (xs.length - 1) = (i - 1) + xs.length := by omega
        rw [e3, e4, Nat.add_mod_right]
    rw [a1, a2]
  rw [Finset.sum_congr rfl key]
  have hshift := sum_range_shift xs.length
    (fun j => f (cyclicGetD xs (j + 1)) (cyclicGetD xs j))
    (fun j => by
      show f (cyclicGetD xs (j + xs.length + 1)) (cyclicGetD xs (j + xs.length)) =
        f (cyclicGetD xs (j + 1)) (cyclicGetD xs j)
      have e : j + xs.length + 1 = (j + 1) + xs.length := by omega
      rw [e, cyclicGetD_add_length, cyclicGetD_add_length])
    (xs.length - 1)
  rw [hshift]

lemma gaussTerm_antisymm (p q : Point) : gaussTerm q p = -gaussTerm p q := by
  unfold gaussTerm
  ring

lemma cyclicSum_flip_gauss (xs : List Point) :
    cyclicSum (fun p q => gaussTerm q p) xs = -cyclicSum gaussTerm xs := by
  unfold cyclicSum
  rw [← Finset.sum_neg_distrib]
  refine Finset.sum_congr rfl (fun i _ => ?_)
  exact gaussTerm_antisymm _ _

lemma haversineDistance_symm (p q : Point) :
    haversineDistance q p = haversineDistance p q := by
  simp only [haversineDistance]
  have key : ∀ x y u v : ℝ,
      Real.sin ((x - y) / 2) * Real.sin ((x - y) / 2) +
        Real.cos y * Real.cos x * (Real.sin ((u - v) / 2) * Real.sin ((u - v) / 2)) =
      Real.sin ((y - x) / 2) * Real.sin ((y - x) / 2) +
        Real.cos x * Real.cos y * (Real.sin ((v - u) / 2) * Real.sin ((v - u) / 2)) := by
    intro x y u v
    rw [show (x - y) / 2 = -((y - x) / 2) by ring, show (u - v) / 2 = -((v - u) / 2) by ring,
      Real.sin_neg, Real.sin_neg]
    ring
  rw [key (p.1 * (Real.pi / 180)) (q.1 * (Real.pi / 180))
    (p.2 * (Real.pi / 180)) (q.2 * (Real.pi / 180))]

lemma cyclicSum_flip_haversine (xs : List Point) :
    cyclicSum (fun p q => haversineDistance q p) xs = cyclicSum haversineDistance xs := by
  unfold cyclicSum
  refine Finset.sum_congr rfl (fun i _ => ?_)
  exact haversineDistance_symm _ _

lemma calculatePolygonArea_cyclic (xs : List Point) :
    calculatePolygonArea xs =
      if xs.length < 3 then 0 else |cyclicSum gaussTerm xs * 6371000 * 6371000 / 2| := by
  unfold calculatePolygonArea
  rw [polygonLoopSum_eq_cyclicSum]

lemma calculatePolygonAreaInKm2_cyclic (xs : List Point) :
    calculatePolygonAreaInKm2 xs =
      if xs.length < 3 then 0 else |cyclicSum gaussTerm xs * 6371 * 6371 / 2| := by
  unfold calculatePolygonAreaInKm2
  rw [polygonLoopSum_eq_cyclicSum]

lemma calculatePolygonPerimeter_cyclic (xs : List Point) :
    calculatePolygonPerimeter xs =
      if xs.length < 2 then 0 else cyclicSum haversineDistance xs := by
  unfold calculatePolygonPerimeter
  rw [polygonLoopSum_eq_cyclicSum]

/-- C6: `calculatePolygonArea` and `calculatePolygonPerimeter` are both
invariant under cyclic rotation of the vertex list by any `k` positions
and under reversal of the vertex order. -/
theorem polygon_area_perimeter_rotation_reversal_invariant (coords : List Point) (k : ℕ) :
    calculatePolygonArea (coords.rotate k) = calculatePolygonArea coords ∧
    calculatePolygonArea coords.reverse = calculatePolygonArea coords ∧
    calculatePolygonPerimeter (coords.rotate k) = calculatePolygonPerimeter coords ∧
    calculatePolygonPerimeter coords.reverse = calculatePolygonPerimeter coords := by
  refine ⟨?_, ?_, ?_, ?_⟩
  · rw [calculatePolygonArea_cyclic, calculatePolygonArea_cyclic,
      List.length_rotate, cyclicSum_rotate]
  · rw [calculatePolygonArea_cyclic, calculatePolygonArea_cyclic,
      List.length_reverse, cyclicSum_reverse, cyclicSum_flip_gauss]
    have e : -cyclicSum gaussTerm coords * 6371000 * 6371000 / 2 =
        -(cyclicSum gaussTerm coords * 6371000 * 6371000 / 2) := by ring
    rw [e, abs_neg]
  · rw [calculatePolygonPerimeter_cyclic, calculatePolygonPerimeter_cyclic,
      List.length_rotate, cyclicSum_rotate]
  · rw [calculatePolygonPerimeter_cyclic, calculatePolygonPerimeter_cyclic,
      List.length_reverse, cyclicSum_reverse, cyclicSum_flip_haversine]

lemma toRadians_ninety : toRadians 90 = Real.pi / 2 := by
  unfold toRadians; ring

lemma toRadians_zero : toRadians 0 = 0 := by
  unfold toRadians; ring

/-! ### Concrete rings used to instantiate the theorems -/

noncomputable section

/-- A degenerate equatorial ring: all latitudes 0, so every `gaussTerm`
vanishes and both area functions give 0. -/
def flatRing : List Point := [(0, 0), (0, 1), (0, 2)]

/-- A ring spanning an eighth of the globe (two poles-to-equator legs),
whose area is far beyond 100 km². -/
def bigRing : List Point := [(0, 0), (90, 0), (0, 90)]

/-- A constant stream standing for the `Math.random()` draws. -/
def rngZero : ℕ → ℝ := fun _ => 0

end

lemma flatRing_area_km2 : calculatePolygonAreaInKm2 flatRing = 0 := by
  unfold calculatePolygonAreaInKm2 flatRing
  rw [if_neg (by norm_num)]
  have hsum : (∑ i ∈ Finset.range ([((0:ℝ),(0:ℝ)), ((0:ℝ),(1:ℝ)), ((0:ℝ),(2:ℝ))] : List Point).length,
      gaussTerm (([((0:ℝ),(0:ℝ)), ((0:ℝ),(1:ℝ)), ((0:ℝ),(2:ℝ))] : List Point).getD i (0, 0))
        (([((0:ℝ),(0:ℝ)), ((0:ℝ),(1:ℝ)), ((0:ℝ),(2:ℝ))] : List Point).getD
          ((i + 1) % ([((0:ℝ),(0:ℝ)), ((0:ℝ),(1:ℝ)), ((0:ℝ),(2:ℝ))] : List Point).length) (0, 0))) =
      gaussTerm ((0:ℝ),(0:ℝ)) ((0:ℝ),(1:ℝ)) + gaussTerm ((0:ℝ),(1:ℝ)) ((0:ℝ),(2:ℝ)) +
        gaussTerm ((0:ℝ),(2:ℝ)) ((0:ℝ),(0:ℝ)) := by
    simp [Finset.sum_range_succ]
  rw [hsum]
  unfold gaussTerm
  rw [toRadians_zero, Real.sin_zero]
  norm_num

lemma flatRing_area_km2_not_gt : ¬ calculatePolygonAreaInKm2 flatRing > 100 := by
  rw [flatRing_area_km2]
  norm_num

lemma bigRing_area_km2 : calculatePolygonAreaInKm2 bigRing = Real.pi / 2 * 6371 * 6371 / 2 := by
  unfold calculatePolygonAreaInKm2 bigRing
  rw [if_neg (by norm_num)]
  have hsum : (∑ i ∈ Finset.range ([((0:ℝ),(0:ℝ)), ((90:ℝ),(0:ℝ)), ((0:ℝ),(90:ℝ))] : List Point).length,
      gaussTerm (([((0:ℝ),(0:ℝ)), ((90:ℝ),(0:ℝ)), ((0:ℝ),(90:ℝ))] : List Point).getD i (0, 0))
        (([((0:ℝ),(0:ℝ)), ((90:ℝ),(0:ℝ)), ((0:ℝ),(90:ℝ))] : List Point).getD
          ((i + 1) % ([((0:ℝ),(0:ℝ)), ((90:ℝ),(0:ℝ)), ((0:ℝ),(90:ℝ))] : List Point).length) (0, 0))) =
      gaussTerm ((0:ℝ),(0:ℝ)) ((90:ℝ),(0:ℝ)) + gaussTerm ((90:ℝ),(0:ℝ)) ((0:ℝ),(90:ℝ)) +
        gaussTerm ((0:ℝ),(90:ℝ)) ((0:ℝ),(0:ℝ)) := by
    simp [Finset.sum_range_succ]
  rw [hsum]
  unfold gaussTerm
  rw [toRadians_ninety, toRadians_zero, Real.sin_pi_div_two, Real.sin_zero]
  rw [abs_of_nonpos (by nlinarith [Real.pi_pos])]
  ring

lemma bigRing_area_km2_gt : calculatePolygonAreaInKm2 bigRing > 100 := by
  rw [bigRing_area_km2]
  nlinarith [Real.pi_gt_three]

/-! ### C10: the two area implementations agree up to the unit factor -/

/-- C10: for every ring, `calculatePolygonAreaInKm2` (the `apiService.js`
copy, Earth radius 6371 km) equals `calculatePolygonArea` (the
`geoUtils.js` copy, Earth radius 6371000 m) divided by 1000000, exactly
in real arithmetic. -/
theorem area_implementations_agree (coords : List Point) :
    calculatePolygonAreaInKm2 coords = calculatePolygonArea coords / 1000000 := by
  rw [calculatePolygonArea_cyclic, calculatePolygonAreaInKm2_cyclic]
  by_cases h : coords.length < 3
  · rw [if_pos h, if_pos h]
    norm_num
  · rw [if_neg h, if_neg h]
    rw [show (1000000 : ℝ) = |(1000000 : ℝ)| from by norm_num, ← abs_div]
    congr 1
    ring

/-! ### C4: the area function matches the spec formula -/

noncomputable section

/-- Modelled from the spec text of `area(ring)`: for each edge
`(i, i+1 mod n)` accumulate `lon_i * sin(lat_{i+1}) − lon_{i+1} * sin(lat_i)`
in radians, sum over all edges, take `|sum| * R² / 2` with
R = 6371000 m. -/
def specArea (ring : List Point) : ℝ :=
  |∑ i ∈ Finset.range ring.length,
      (toRadians (ring.getD (i % ring.length) (0, 0)).2 *
          Real.sin (toRadians (ring.getD ((i + 1) % ring.length) (0, 0)).1) -
        toRadians (ring.getD ((i + 1) % ring.length) (0, 0)).2 *
          Real.sin (toRadians (ring.getD (i % ring.length) (0, 0)).1))|
    * 6371000 ^ 2 / 2

end

/-- C4: for every ring of at least 3 vertices given in degrees,
`calculatePolygonArea` equals the line-integral formula of the spec:
`|Σ over edges (i, i+1 mod n) of (lon_i·sin(lat_{i+1}) − lon_{i+1}·sin(lat_i))| · R²/2`
with angles in radians and R = 6371000 m. -/
theorem calculatePolygonArea_matches_spec_formula (ring : List Point)
    (h : 3 ≤ ring.length) :
    calculatePolygonArea ring = specArea ring := by
  unfold calculatePolygonArea specArea
  rw [if_neg (by omega)]
  have hsum : (∑ i ∈ Finset.range ring.length,
      gaussTerm (ring.getD i (0, 0)) (ring.getD ((i + 1) % ring.length) (0, 0))) =
      ∑ i ∈ Finset.range ring.length,
        (toRadians (ring.getD (i % ring.length) (0, 0)).2 *
            Real.sin (toRadians (ring.getD ((i + 1) % ring.length) (0, 0)).1) -
          toRadians (ring.getD ((i + 1) % ring.length) (0, 0)).2 *
            Real.sin (toRadians (ring.getD (i % ring.length) (0, 0)).1)) := by
    refine Finset.sum_congr rfl (fun i hi => ?_)
    rw [Nat.mod_eq_of_lt (Finset.mem_range.mp hi)]
    rfl
  rw [hsum]
  rw [show (∑ i ∈ Finset.range ring.length,
      (toRadians (ring.getD (i % ring.length) (0, 0)).2 *
          Real.sin (toRadians (ring.getD ((i + 1) % ring.length) (0, 0)).1) -
        toRadians (ring.getD ((i + 1) % ring.length) (0, 0)).2 *
          Real.sin (toRadians (ring.getD (i % ring.length) (0, 0)).1)))
      * 6371000 * 6371000 / 2 =
      (∑ i ∈ Finset.range ring.length,
      (toRadians (ring.getD (i % ring.length) (0, 0)).2 *
          Real.sin (toRadians (ring.getD ((i + 1) % ring.length) (0, 0)).1) -
        toRadians (ring.getD ((i + 1) % ring.length) (0, 0)).2 *
          Real.sin (toRadians (ring.getD (i % ring.length) (0, 0)).1)))
      * (6371000 ^ 2 / 2) from by ring]
  rw [abs_mul, abs_of_pos (show (0:ℝ) < 6371000 ^ 2 / 2 from by positivity)]
  ring

/-- Witness for C4 at the concrete equatorial ring. -/
theorem calculatePolygonArea_matches_spec_formula_witness :
    3 ≤ flatRing.length ∧ calculatePolygonArea flatRing = specArea flatRing :=
  ⟨by decide, calculatePolygonArea_matches_spec_formula flatRing (by decide)⟩

/-! ### C5: degenerate rings give zero or null sentinels, never a fault -/

/-- C5: for rings with fewer than 3 points `calculatePolygonArea` is 0 and
`coordsToGeoJSON` is `none`; for fewer than 2 points
`calculatePolygonPerimeter` is 0.  All three functions are total, so no
input makes them fault. -/
theorem degenerate_ring_zero_metrics (coords : List Point) :
    (coords.length < 3 →
      calculatePolygonArea coords = 0 ∧ coordsToGeoJSON coords = none) ∧
    (coords.length < 2 → calculatePolygonPerimeter coords = 0) := by
  refine ⟨fun h => ⟨?_, ?_⟩, fun h => ?_⟩
  · unfold calculatePolygonArea
    rw [if_pos h]
  · unfold coordsToGeoJSON
    rw [if_pos h]
  · unfold calculatePolygonPerimeter
    rw [if_pos h]

/-- Witness for C5 at a one-point list and the empty list. -/
theorem degenerate_ring_zero_metrics_witness :
    calculatePolygonArea [((0:ℝ), (0:ℝ))] = 0 ∧
      coordsToGeoJSON [((0:ℝ), (0:ℝ))] = none ∧
      calculatePolygonPerimeter ([] : List Point) = 0 :=
  ⟨((degenerate_ring_zero_metrics [((0:ℝ), (0:ℝ))]).1 (by decide)).1,
   ((degenerate_ring_zero_metrics [((0:ℝ), (0:ℝ))]).1 (by decide)).2,
   (degenerate_ring_zero_metrics []).2 (by decide)⟩

/-! ### C3: very large polygons never reach the Overpass provider -/

/-- C3: for every ring whose computed area exceeds 100 km²,
`fetchLandUseData` returns the result of `estimateLandUseFromLocation`
directly, whatever the provider behaviour — the Overpass call is
unreachable on such input. -/
theorem fetchLandUseData_large_area_skips_provider (coords : List Point)
    (resp : OverpassResult) (rng : ℕ → ℝ)
    (h : calculatePolygonAreaInKm2 coords > 100) :
    fetchLandUseData coords resp rng = estimateLandUseFromLocation coords rng := by
  unfold fetchLandUseData
  rw [if_pos h]

/-- Witness for C3 at a concrete quarter-hemisphere ring. -/
theorem fetchLandUseData_large_area_skips_provider_witness :
    calculatePolygonAreaInKm2 bigRing > 100 ∧
      fetchLandUseData bigRing (OverpassResult.success []) rngZero =
        estimateLandUseFromLocation bigRing rngZero :=
  ⟨bigRing_area_km2_gt,
   fetchLandUseData_large_area_skips_provider bigRing (OverpassResult.success [])
     rngZero bigRing_area_km2_gt⟩

/-! ### C7: the polar band of the ocean heuristic -/

/-- C7 counterexample: the claim says every point with `|lat| > 60` is
classified as land (`false`).  The northern point (65, −30) has
`|lat| > 60` yet lies in no continental box, and only latitudes below
−60 are special-cased, so `isLikelyOceanLocation` classifies it as
ocean (`true`). -/
theorem isLikelyOcean_north_polar_counterexample :
    |(65 : ℝ)| > 60 ∧ isLikelyOceanLocation 65 (-30) = true := by
  refine ⟨by norm_num, ?_⟩
  unfold isLikelyOceanLocation
  norm_num

/-- C7 amended: only the southern polar band is treated as land/ice:
for every point with `lat < −60`, `isLikelyOceanLocation` returns
`false` regardless of longitude.  (A northern point with `lat > 60` is
land only when a continental box contains it.) -/
theorem isLikelyOcean_south_polar_land (lat lng : ℝ) (h : lat < -60) :
    isLikelyOceanLocation lat lng = false := by
  unfold isLikelyOceanLocation
  have c1 : ¬(lat > 35 ∧ lat < 70 ∧ lng > -10 ∧ lng < 40) := by
    rintro ⟨h1, -, -, -⟩; linarith
  have c2 : ¬(lat > 15 ∧ lat < 70 ∧ lng > -170 ∧ lng < -50) := by
    rintro ⟨h1, -, -, -⟩; linarith
  have c3 : ¬(lat > -60 ∧ lat < 15 ∧ lng > -80 ∧ lng < -35) := by
    rintro ⟨h1, -, -, -⟩; linarith
  have c4 : ¬(lat > -40 ∧ lat < 35 ∧ lng > -20 ∧ lng < 55) := by
    rintro ⟨h1, -, -, -⟩; linarith
  have c5 : ¬(lat > 0 ∧ lat < 75 ∧ lng > 40 ∧ lng < 180) := by
    rintro ⟨h1, -, -, -⟩; linarith
  have c6 : ¬(lat > -45 ∧ lat < -10 ∧ lng > 110 ∧ lng < 155) := by
    rintro ⟨h1, -, -, -⟩; linarith
  rw [if_neg c1, if_neg c2, if_neg c3, if_neg c4, if_neg c5, if_neg c6, if_pos h]

/-- Witness for the amended C7 at the concrete point (−70, 10). -/
theorem isLikelyOcean_south_polar_land_witness :
    (-70 : ℝ) < -60 ∧ isLikelyOceanLocation (-70) 10 = false :=
  ⟨by norm_num, isLikelyOcean_south_polar_land (-70) 10 (by norm_num)⟩

/-! ### C1: provider failure or an empty match set falls back to the estimator -/

/-- C1: for every ring of at least 3 vertices and every provider
behaviour, `fetchLandUseData` (a total function — no exception reaches
the caller) returns the result of `estimateLandUseFromLocation` whenever
the provider call fails or succeeds with all four matched counts zero,
and that result carries an `Estimation …` provenance tag. -/
theorem fetchLandUseData_falls_back_to_estimate (coords : List Point)
    (resp : OverpassResult) (rng : ℕ → ℝ) (hlen : 3 ≤ coords.length)
    (hfail : resp = OverpassResult.failure ∨
      ∃ es, resp = OverpassResult.success es ∧
        countLanduse es "residential" + countLanduse es "farmland" +
          countNatural es "wood" + countNatural es "water" = 0) :
    fetchLandUseData coords resp rng = estimateLandUseFromLocation coords rng ∧
    ∃ tag, (estimateLandUseFromLocation coords rng).dataSource = "Estimation " ++ tag := by
  constructor
  · unfold fetchLandUseData
    by_cases harea : calculatePolygonAreaInKm2 coords > 100
    · rw [if_pos harea]
    · rw [if_neg harea]
      rcases hfail with h | ⟨es, hes, hzero⟩
      · rw [h]
      · rw [hes]
        dsimp only
        rw [if_pos hzero]
  · unfold estimateLandUseFromLocation
    dsimp only
    split
    · exact ⟨"(océan)", rfl⟩
    · split
      · exact ⟨"(zone polaire)", rfl⟩
      · split
        · exact ⟨"(zone subpolaire)", rfl⟩
        · split
          · exact ⟨"(zone tempérée)", rfl⟩
          · exact ⟨"(zone tropicale)", rfl⟩

/-- Witness for C1: a failing provider on the equatorial ring. -/
theorem fetchLandUseData_falls_back_to_estimate_witness :
    3 ≤ flatRing.length ∧
      (fetchLandUseData flatRing OverpassResult.failure rngZero =
          estimateLandUseFromLocation flatRing rngZero ∧
        ∃ tag, (estimateLandUseFromLocation flatRing rngZero).dataSource =
          "Estimation " ++ tag) :=
  ⟨by decide,
   fetchLandUseData_falls_back_to_estimate flatRing OverpassResult.failure rngZero
     (by decide) (Or.inl rfl)⟩

/-! ### C2: percentage sum on the provider-sourced path -/

/-- An Overpass element list with counts 1 residential, 1 farmland,
1 wood and 3 water:  the three one-sixth shares each round to 17 and the
half share to 50, so the four percentages alone already total 101. -/
def sampleElements : List OSMElement :=
  [{ tags := some { landuse := some "residential", natural := none } },
   { tags := some { landuse := some "farmland", natural := none } },
   { tags := some { landuse := none, natural := some "wood" } },
   { tags := some { landuse := none, natural := some "water" } },
   { tags := some { landuse := none, natural := some "water" } },
   { tags := some { landuse := none, natural := some "water" } }]

/-- Evaluation of the provider-sourced path of `fetchLandUseData`. -/
lemma fetchLandUseData_provider_path (coords : List Point) (es : List OSMElement)
    (rng : ℕ → ℝ)
    (harea : ¬ calculatePolygonAreaInKm2 coords > 100)
    (hcount : countLanduse es "residential" + countLanduse es "farmland" +
      countNatural es "wood" + countNatural es "water" ≠ 0) :
    fetchLandUseData coords (OverpassResult.success es) rng =
      (let total := countLanduse es "residential" + countLanduse es "farmland" +
        countNatural es "wood" + countNatural es "water"
      let urbanPercent := jsRound ((countLanduse es "residential" : ℝ) / (total : ℝ) * 100)
      let agriculturePercent := jsRound ((countLanduse es "farmland" : ℝ) / (total : ℝ) * 100)
      let forestPercent := jsRound ((countNatural es "wood" : ℝ) / (total : ℝ) * 100)
      let waterPercent := jsRound ((countNatural es "water" : ℝ) / (total : ℝ) * 100)
      let otherPercent := 100 -
        (urbanPercent + agriculturePercent + forestPercent + waterPercent)
      { urban := urbanPercent, agriculture := agriculturePercent,
        forest := forestPercent, water := waterPercent,
        other := if 0 ≤ otherPercent then otherPercent else 0,
        dataSource := "OpenStreetMap" }) := by
  unfold fetchLandUseData
  rw [if_neg harea]
  dsimp only
  rw [if_neg hcount]

/-- C2 counterexample: a provider-sourced result (dataSource
`OpenStreetMap`) whose five percentages sum to 101, not 100: the counts
(1, 1, 1, 3) round to 17 + 17 + 17 + 50 = 101, and the negative
remainder is clamped to 0 instead of re-normalizing. -/
theorem landuse_sum_100_counterexample :
    (fetchLandUseData flatRing (OverpassResult.success sampleElements) rngZero).dataSource
        = "OpenStreetMap" ∧
      (fetchLandUseData flatRing (OverpassResult.success sampleElements) rngZero).urban +
        (fetchLandUseData flatRing (OverpassResult.success sampleElements) rngZero).agriculture +
        (fetchLandUseData flatRing (OverpassResult.success sampleElements) rngZero).forest +
        (fetchLandUseData flatRing (OverpassResult.success sampleElements) rngZero).water +
        (fetchLandUseData flatRing (OverpassResult.success sampleElements) rngZero).other
        ≠ 100 := by
  have heval : fetchLandUseData flatRing (OverpassResult.success sampleElements) rngZero =
      { urban := 17, agriculture := 17, forest := 17, water := 50, other := 0,
        dataSource := "OpenStreetMap" } := by
    rw [fetchLandUseData_provider_path flatRing sampleElements rngZero
      flatRing_area_km2_not_gt (by decide)]
    have hu : countLanduse sampleElements "residential" = 1 := by decide
    have hag : countLanduse sampleElements "farmland" = 1 := by decide
    have hf : countNatural sampleElements "wood" = 1 := by decide
    have hw : countNatural sampleElements "water" = 3 := by decide
    dsimp only
    rw [hu, hag, hf, hw]
    have h16 : jsRound ((↑(1:ℕ)) / (↑(1 + 1 + 1 + 3 : ℕ)) * 100) = 17 := by
      norm_num [jsRound]
    have h36 : jsRound ((↑(3:ℕ)) / (↑(1 + 1 + 1 + 3 : ℕ)) * 100) = 50 := by
      norm_num [jsRound]
    rw [h16, h36]
    norm_num
  rw [heval]
  exact ⟨rfl, by decide⟩

/-- C2 amended: on the provider-sourced path the five percentages sum to
`max 100 (urban + agriculture + forest + water)` — exactly 100 whenever
the four rounded percentages total at most 100, and strictly more than
100 (the four-percentage total itself, `other` clamped to 0) when the
roundings overshoot. -/
theorem landuse_provider_path_sum (coords : List Point) (es : List OSMElement)
    (rng : ℕ → ℝ)
    (harea : ¬ calculatePolygonAreaInKm2 coords > 100)
    (hcount : countLanduse es "residential" + countLanduse es "farmland" +
      countNatural es "wood" + countNatural es "water" ≠ 0) :
    (fetchLandUseData coords (OverpassResult.success es) rng).dataSource = "OpenStreetMap" ∧
    (fetchLandUseData coords (OverpassResult.success es) rng).urban +
      (fetchLandUseData coords (OverpassResult.success es) rng).agriculture +
      (fetchLandUseData coords (OverpassResult.success es) rng).forest +
      (fetchLandUseData coords (OverpassResult.success es) rng).water +
      (fetchLandUseData coords (OverpassResult.success es) rng).other =
    max 100
      ((fetchLandUseData coords (OverpassResult.success es) rng).urban +
        (fetchLandUseData coords (OverpassResult.success es) rng).agriculture +
        (fetchLandUseData coords (OverpassResult.success es) rng).forest +
        (fetchLandUseData coords (OverpassResult.success es) rng).water) := by
  rw [fetchLandUseData_provider_path coords es rng harea hcount]
  dsimp only
  refine ⟨rfl, ?_⟩
  split
  · omega
  · omega

/-- Witness for the amended C2 at the concrete counts (1, 1, 1, 3). -/
theorem landuse_provider_path_sum_witness :
    (¬ calculatePolygonAreaInKm2 flatRing > 100) ∧
    ((fetchLandUseData flatRing (OverpassResult.success sampleElements) rngZero).dataSource
        = "OpenStreetMap" ∧
      (fetchLandUseData flatRing (OverpassResult.success sampleElements) rngZero).urban +
        (fetchLandUseData flatRing (OverpassResult.success sampleElements) rngZero).agriculture +
        (fetchLandUseData flatRing (OverpassResult.success sampleElements) rngZero).forest +
        (fetchLandUseData flatRing (OverpassResult.success sampleElements) rngZero).water +
        (fetchLandUseData flatRing (OverpassResult.success sampleElements) rngZero).other =
      max 100
        ((fetchLandUseData flatRing (OverpassResult.success sampleElements) rngZero).urban +
          (fetchLandUseData flatRing (OverpassResult.success sampleElements) rngZero).agriculture +
          (fetchLandUseData flatRing (OverpassResult.success sampleElements) rngZero).forest +
          (fetchLandUseData flatRing (OverpassResult.success sampleElements) rngZero).water)) :=
  ⟨flatRing_area_km2_not_gt,
   landuse_provider_path_sum flatRing sampleElements rngZero
     flatRing_area_km2_not_gt (by decide)⟩

/-! ### C8: GeoJSON conversion produces a closed (lng, lat) polygon ring -/

/-- A `Feature`/`Polygon` object holding a single coordinate ring, the
shape of every successful `coordsToGeoJSON` result. -/
def mkPolygonFeature (ring : List (ℝ × ℝ)) : GeoJSONFeature :=
  { type := "Feature", properties := [],
    geometry := { type := "Polygon", coordinates := [ring] } }

/-- C8: for every ring of n ≥ 3 points, `coordsToGeoJSON` returns a
`Feature` whose geometry is a `Polygon` with a single coordinate ring:
entry `i` is input pair `i` reversed to (longitude, latitude), the first
entry equals the last, and the ring keeps n entries when the input
first and last points already coincide while otherwise the reversed
first vertex is appended for n + 1 entries. -/
theorem coordsToGeoJSON_closed_polygon (coords : List Point) (h : 3 ≤ coords.length) :
    ∃ ring : List (ℝ × ℝ),
      coordsToGeoJSON coords = some (mkPolygonFeature ring) ∧
      (∀ i, i < coords.length →
        ring.getD i (0, 0) = ((coords.getD i (0, 0)).2, (coords.getD i (0, 0)).1)) ∧
      ring.head? = some ((coords.getD 0 (0, 0)).2, (coords.getD 0 (0, 0)).1) ∧
      ring.getLast? = ring.head? ∧
      (coords.getD 0 (0, 0) = coords.getD (coords.length - 1) (0, 0) →
        ring.length = coords.length) ∧
      (coords.getD 0 (0, 0) ≠ coords.getD (coords.length - 1) (0, 0) →
        ring.length = coords.length + 1) := by
  unfold coordsToGeoJSON
  rw [if_neg (show ¬ coords.length < 3 by omega)]
  dsimp only
  set m := coords.map (fun coord => (coord.2, coord.1)) with hm
  have hlenm : m.length = coords.length := List.length_map coords _
  have h0lt : 0 < coords.length := by omega
  have hllt : coords.length - 1 < coords.length := by omega
  have h0m : 0 < m.length := by omega
  have hget : ∀ i, i < coords.length → m.getD i (0, 0) =
      ((coords.getD i (0, 0)).2, (coords.getD i (0, 0)).1) := by
    intro i hi
    rw [hm]
    rw [List.getD_eq_getElem?_getD, List.getElem?_map, List.getElem?_eq_getElem hi,
      List.getD_eq_getElem?_getD, List.getElem?_eq_getElem hi]
    rfl
  have hgetlast : m.getD (m.length - 1) (0, 0) =
      ((coords.getD (coords.length - 1) (0, 0)).2,
        (coords.getD (coords.length - 1) (0, 0)).1) := by
    rw [hlenm]
    exact hget _ hllt
  have hhead : m.head? = some ((coords.getD 0 (0, 0)).2, (coords.getD 0 (0, 0)).1) := by
    rw [List.head?_eq_getElem?, List.getElem?_eq_getElem h0m]
    have h1 : m.getD 0 (0, 0) = ((coords.getD 0 (0, 0)).2, (coords.getD 0 (0, 0)).1) :=
      hget 0 h0lt
    rw [List.getD_eq_getElem?_getD, List.getElem?_eq_getElem h0m] at h1
    exact congrArg some h1
  have hlastm : m.getLast? = some ((coords.getD (coords.length - 1) (0, 0)).2,
      (coords.getD (coords.length - 1) (0, 0)).1) := by
    have hlm : m.length - 1 < m.length := by omega
    rw [List.getLast?_eq_getElem?, List.getElem?_eq_getElem hlm]
    have h1 := hgetlast
    rw [List.getD_eq_getElem?_getD, List.getElem?_eq_getElem hlm] at h1
    exact congrArg some h1
  split
  · next hcond =>
    refine ⟨m ++ [m.getD 0 (0, 0)], rfl, ?_, ?_, ?_, ?_, ?_⟩
    · intro i hi
      rw [List.getD_append m _ (0, 0) i (by omega)]
      exact hget i hi
    · rw [List.head?_eq_getElem?, List.getElem?_append_left h0m,
        ← List.head?_eq_getElem?]
      exact hhead
    · rw [List.getLast?_concat, List.head?_eq_getElem?,
        List.getElem?_append_left h0m, ← List.head?_eq_getElem?, hhead]
      exact congrArg some (hget 0 h0lt)
    · intro heq
      exfalso
      rcases hcond with hc | hc
      · rw [hget 0 h0lt, hgetlast] at hc
        exact hc (by rw [heq])
      · rw [hget 0 h0lt, hgetlast] at hc
        exact hc (by rw [heq])
    · intro _
      rw [List.length_append, hlenm]
      rfl
  · next hcond =>
    push_neg at hcond
    obtain ⟨hc1, hc2⟩ := hcond
    rw [hget 0 h0lt, hgetlast] at hc1 hc2
    have heq : coords.getD 0 (0, 0) = coords.getD (coords.length - 1) (0, 0) := by
      have e1 : (coords.getD 0 (0, 0)).2 = (coords.getD (coords.length - 1) (0, 0)).2 := hc1
      have e2 : (coords.getD 0 (0, 0)).1 = (coords.getD (coords.length - 1) (0, 0)).1 := hc2
      exact Prod.ext_iff.mpr ⟨e2, e1⟩
    refine ⟨m, rfl, hget, hhead, ?_, fun _ => hlenm, fun hne => absurd heq hne⟩
    rw [hlastm, hhead, heq]

/-- Witness for C8 at the concrete (not already closed) equatorial ring. -/
theorem coordsToGeoJSON_closed_polygon_witness :
    3 ≤ flatRing.length ∧
      (∃ ring : List (ℝ × ℝ),
        coordsToGeoJSON flatRing = some (mkPolygonFeature ring) ∧
        (∀ i, i < flatRing.length →
          ring.getD i (0, 0) = ((flatRing.getD i (0, 0)).2, (flatRing.getD i (0, 0)).1)) ∧
        ring.head? = some ((flatRing.getD 0 (0, 0)).2, (flatRing.getD 0 (0, 0)).1) ∧
        ring.getLast? = ring.head? ∧
        (flatRing.getD 0 (0, 0) = flatRing.getD (flatRing.length - 1) (0, 0) →
          ring.length = flatRing.length) ∧
        (flatRing.getD 0 (0, 0) ≠ flatRing.getD (flatRing.length - 1) (0, 0) →
          ring.length = flatRing.length + 1)) :=
  ⟨by decide, coordsToGeoJSON_closed_polygon flatRing (by decide)⟩

/-! ### C9: the synthetic climate temperature curve -/

lemma flatRing_centerLat : climateCenterLat flatRing = 0 := by
  unfold climateCenterLat flatRing
  norm_num

/-- C9 counterexample: for the equatorial ring the baseline is 25 and
`min(35,|lat|)+5 = 5`; month 0 of the unrounded temperature list is
`25 + (5/2)·sin(−π/2) = 22.5`, while the claim formula
`baseline + (min(35,|lat|)+5)·sin(2π(i−3)/12)` gives `25 + 5·(−1) = 20`:
the code halves the latitude-driven range, the claim does not. -/
theorem climate_amplitude_counterexample :
    (climateTemperatures flatRing).getD 0 0 = 45 / 2 ∧
      ((45 : ℝ) / 2) ≠ 25 + 5 * Real.sin (2 * Real.pi * ((0 : ℝ) - 3) / 12) := by
  constructor
  · unfold climateTemperatures
    rw [flatRing_centerLat]
    rw [if_pos (le_refl (0 : ℝ))]
    rw [List.getD_eq_getElem?_getD, List.getElem?_map,
      List.getElem?_range (show (0:ℕ) < 12 by norm_num)]
    show max 5 (25 - |(0:ℝ)| / 2) +
      (min 35 |(0:ℝ)| + 5) / 2 * Real.sin ((((0:ℕ) : ℝ) - 3) / 12 * 2 * Real.pi) = 45 / 2
    have e : (((0:ℕ) : ℝ) - 3) / 12 * 2 * Real.pi = -(Real.pi / 2) := by
      push_cast
      ring
    rw [e, Real.sin_neg, Real.sin_pi_div_two]
    norm_num
  · have e : 2 * Real.pi * ((0 : ℝ) - 3) / 12 = -(Real.pi / 2) := by ring
    rw [e, Real.sin_neg, Real.sin_pi_div_two]
    norm_num

/-- C9 amended: the 12 unrounded monthly temperatures form the sine wave
`baseline + A·sin(2π(i∓3)/12)` with baseline `max(5, 25 − |lat|/2)` and
amplitude `A = (min(35,|lat|)+5)/2` — half the latitude-driven range —
where `lat` is the arithmetic mean of the ring latitudes; the phase is
`i − 3` for `lat ≥ 0` and `i + 3` for `lat < 0`. -/
theorem climateTemperatures_sine_wave (coords : List Point) :
    (0 ≤ climateCenterLat coords →
      climateTemperatures coords = (List.range 12).map (fun i : ℕ =>
        max 5 (25 - |climateCenterLat coords| / 2) +
          (min 35 |climateCenterLat coords| + 5) / 2 *
            Real.sin (2 * Real.pi * ((i : ℝ) - 3) / 12))) ∧
    (climateCenterLat coords < 0 →
      climateTemperatures coords = (List.range 12).map (fun i : ℕ =>
        max 5 (25 - |climateCenterLat coords| / 2) +
          (min 35 |climateCenterLat coords| + 5) / 2 *
            Real.sin (2 * Real.pi * ((i : ℝ) + 3) / 12))) := by
  constructor
  · intro hns
    unfold climateTemperatures
    rw [if_pos hns]
    refine List.map_congr_left (fun i _ => ?_)
    have e : (((i:ℕ) : ℝ) - 3) / 12 * 2 * Real.pi = 2 * Real.pi * ((i : ℝ) - 3) / 12 := by
      ring
    rw [e]
  · intro hs
    unfold climateTemperatures
    rw [if_neg (not_le.mpr hs)]
    refine List.map_congr_left (fun i _ => ?_)
    have e : (((i:ℕ) : ℝ) + 3) / 12 * 2 * Real.pi = 2 * Real.pi * ((i : ℝ) + 3) / 12 := by
      ring
    rw [e]

/-- Witness for the amended C9 at the equatorial (northern-branch) ring. -/
theorem climateTemperatures_sine_wave_witness :
    0 ≤ climateCenterLat flatRing ∧
      climateTemperatures flatRing = (List.range 12).map (fun i : ℕ =>
        max 5 (25 - |climateCenterLat flatRing| / 2) +
          (min 35 |climateCenterLat flatRing| + 5) / 2 *
            Real.sin (2 * Real.pi * ((i : ℝ) - 3) / 12)) :=
  ⟨by simp [flatRing_centerLat],
   (climateTemperatures_sine_wave flatRing).1 (by simp [flatRing_centerLat])⟩
